import Mathlib

/-!
Verification of the anomaly-synthesis and spatial-overlay core of the
pyc-carbonnet repository.

The development shallowly embeds two TypeScript modules:

* Synthesizer A (`generateDummyAnomalies` / `generateAnomaliesAroundPoint`,
  the standalone anomaly layer module): random point anomalies scattered
  around a polygon centroid.
* Synthesizer B (`detectAnomalies` and its helpers inside the verification
  step component): rule-based anomalies plus two overlay feature
  collections, stored in component state.

Modelling conventions:

* JavaScript numbers are embedded as `ℚ`.  All the arithmetic performed by
  the source (sums, means, products by literal decimal constants, min/max,
  floor) is exact on the inputs considered here, so `ℚ` is faithful
  wherever the source does not hit `NaN`/`Infinity`.  The single place the
  source manufactures infinities — the sentinel-initialised bounding-box
  fold — is embedded separately over `ERat` (`WithBot (WithTop ℚ)`), which
  has the required `+∞`/`-∞` elements (`posInf`/`negInf`).
* `Math.random()` is embedded as an ambient stream `rand : ℕ → ℚ` consumed
  in source call order; the predicate `RandValid` records the JS contract
  `0 ≤ rand n < 1`.
* Strings built by template interpolation are embedded by the inductive
  `Desc`, whose `growth` constructor carries the one datum interpolated by
  the source: the growth percentage rendered by `toFixed(1)`, embedded as
  the integer number of tenths `round (pct * 10)`.
* React state touched by `detectAnomalies` (`setAnomalies`,
  `anomalyLayersRef.current`, calls to the global `window.addAnomalyLayer`
  registry) is embedded as an explicit state record `VerifState`;
  registry invocations are modelled as events appended to
  `registeredCalls`.
-/

namespace CarbonNet

/-- A map coordinate `[longitude, latitude]` in decimal degrees. -/
abbrev Point : Type := ℚ × ℚ

/-- Severity levels, source union type `'high' | 'medium' | 'low'`. -/
inductive Severity where
  | high
  | medium
  | low
deriving DecidableEq, BEq, Repr

/-!  ## Synthesizer A: the standalone anomaly layer module  -/

/-- Source `AnomalyPoint` record. -/
structure AnomalyPoint where
  id : ℕ
  position : Point
  severity : Severity
  type : String
  description : String
  radius : ℚ
deriving DecidableEq, Repr

/-- The JS `Math.random()` contract: every draw lies in `[0, 1)`. -/
def RandValid (rand : ℕ → ℚ) : Prop := ∀ n, 0 ≤ rand n ∧ rand n < 1

/-- Source catalog `anomalyTypes`: 7 fixed (type, description) pairs. -/
def anomalyTypes : List (String × String) :=
  [("Deforestation", "Potential unauthorized clearing detected"),
   ("Carbon Stock Inconsistency", "Reported vs measured stock discrepancy"),
   ("Boundary Violation", "Project boundary overlap with restricted area"),
   ("Degradation", "Forest degradation above expected threshold"),
   ("Reporting Error", "Measurement data inconsistent with satellite imagery"),
   ("Conversion Risk", "High risk of land-use conversion detected"),
   ("Illegal Activity", "Signs of unauthorized activity detected")]

/-- Source `severityLevels`: the 10-slot weighted severity list. -/
def severityLevels : List Severity :=
  [.high, .high,
   .medium, .medium, .medium, .medium, .medium,
   .low, .low, .low]

/-- Source `radiusMap = \x7b high: 300, medium: 200, low: 150 \x7d`. -/
def radiusMap : Severity → ℚ
  | .high => 300
  | .medium => 200
  | .low => 150

/-- Source `scale = 0.02`, the spread of points around the center. -/
def scale : ℚ := 0.02

/-- Source default center `[101.4383, 0.5104]`. -/
def defaultCenter : Point := (101.4383, 0.5104)

/-- One iteration of the generation loop in `generateAnomaliesAroundPoint`.
The loop body draws `Math.random()` four times, in this order: `lngOffset`,
`latOffset`, `typeIndex`, `severityIndex`; iteration `i` therefore consumes
stream slots `4*i .. 4*i+3`.  Array indexing `severityLevels[severityIndex]`
is embedded as `getD` with an arbitrary default; for a valid random stream
the floor of `r * length` is always in range, so the default is never hit. -/
def mkDummyAnomaly (center : Point) (rand : ℕ → ℚ) (i : ℕ) : AnomalyPoint :=
  let lngOffset := (rand (4 * i) - 0.5) * scale * 2
  let latOffset := (rand (4 * i + 1) - 0.5) * scale * 2
  let typeIndex := (⌊rand (4 * i + 2) * 7⌋).toNat
  let severityIndex := (⌊rand (4 * i + 3) * 10⌋).toNat
  let severity := severityLevels.getD severityIndex .medium
  let ty := anomalyTypes.getD typeIndex ("", "")
  { id := i + 1
    position := (center.1 + lngOffset, center.2 + latOffset)
    severity := severity
    type := ty.1
    description := ty.2
    radius := radiusMap severity }

/-- Source `generateAnomaliesAroundPoint(center, count)`:
`count` loop iterations, each pushing one record. -/
def generateAnomaliesAroundPoint (center : Point) (count : ℕ)
    (rand : ℕ → ℚ) : List AnomalyPoint :=
  (List.range count).map (mkDummyAnomaly center rand)

/-- Unweighted vertex average; the source computes this inline with two
`reduce` sums divided by `centerPolygon.length`. -/
def centroid (polygon : List Point) : Point :=
  ((polygon.map Prod.fst).sum / (polygon.length : ℚ),
   (polygon.map Prod.snd).sum / (polygon.length : ℚ))

/-- Source `generateDummyAnomalies(centerPolygon, count)`.  `none` embeds a
`null` polygon argument; the JS guard `!centerPolygon` is true exactly for
`null`/`undefined` (an empty array is truthy), hence the `Option` split. -/
def generateDummyAnomalies (centerPolygon : Option (List Point))
    (count : ℕ) (rand : ℕ → ℚ) : List AnomalyPoint :=
  match centerPolygon with
  | none => generateAnomaliesAroundPoint defaultCenter count rand
  | some poly =>
    if poly.length < 3 then
      generateAnomaliesAroundPoint defaultCenter count rand
    else
      generateAnomaliesAroundPoint (centroid poly) count rand

/-!  ## Synthesizer B: the verification-step component  -/

/-- The source `carbonMetrics` fields consumed by the verification step
(`carbonStocks`, `forestGrowth`, `area`); all JS numbers. -/
structure CarbonMetrics where
  carbonStocks : ℚ
  forestGrowth : ℚ
  area : ℚ
deriving DecidableEq, Repr

/-- Source `calculateForestGrowthPercentage()`: reads the ambient
`carbonMetrics` (here passed explicitly; `none` embeds an absent value,
caught by the `if (!carbonMetrics) return 0` guard). -/
def calculateForestGrowthPercentage (carbonMetrics : Option CarbonMetrics) : ℚ :=
  match carbonMetrics with
  | none => 0
  | some m =>
    let baseline2017 := m.carbonStocks - m.forestGrowth
    if baseline2017 = 0 then 0
    else m.forestGrowth / baseline2017 * 100

/-- Extended rationals with `+∞` and `-∞`, the value space of the
sentinel-initialised bounding-box fold (JS `Infinity` / `-Infinity`). -/
abbrev ERat : Type := WithBot (WithTop ℚ)

/-- Embedding of a finite JS number into `ERat`. -/
def toERat (x : ℚ) : ERat := ((x : WithTop ℚ) : WithBot (WithTop ℚ))

/-- JS `Infinity`. -/
def posInf : ERat := ((⊤ : WithTop ℚ) : WithBot (WithTop ℚ))

/-- JS `-Infinity`. -/
def negInf : ERat := ⊥

/-- The bounding-box record over extended numbers, as returned by the
source `getBoundingBox` (which can return infinities on empty input). -/
structure BBoxE where
  minLon : ERat
  maxLon : ERat
  minLat : ERat
  maxLat : ERat
deriving DecidableEq

/-- One step of the `polygon.forEach` accumulation in `getBoundingBox`. -/
def bboxStepE (b : BBoxE) (q : Point) : BBoxE :=
  { minLon := min b.minLon (toERat q.1)
    maxLon := max b.maxLon (toERat q.1)
    minLat := min b.minLat (toERat q.2)
    maxLat := max b.maxLat (toERat q.2) }

/-- Source `getBoundingBox(polygon)`: min/max fold over the vertices,
starting from the sentinels `Infinity` / `-Infinity`. -/
def getBoundingBox (polygon : List Point) : BBoxE :=
  polygon.foldl bboxStepE
    { minLon := posInf, maxLon := negInf, minLat := posInf, maxLat := negInf }

/-- Finite (all-`ℚ`) bounding box, meaningful for nonempty polygons. -/
structure BBoxQ where
  minLon : ℚ
  maxLon : ℚ
  minLat : ℚ
  maxLat : ℚ
deriving DecidableEq, Repr

/-- The same accumulation step as `bboxStepE`, on finite values. -/
def bboxStep (b : BBoxQ) (q : Point) : BBoxQ :=
  { minLon := min b.minLon q.1
    maxLon := max b.maxLon q.1
    minLat := min b.minLat q.2
    maxLat := max b.maxLat q.2 }

/-- Finite rendering of the source `getBoundingBox` fold.  On a nonempty
polygon the first `forEach` step collapses every infinite sentinel to the
first vertex, after which all values stay finite; the bridge lemma
`getBoundingBox_cons` below proves this version pointwise equal (under
`toERat`) to the faithful `ERat` fold.  On the empty polygon the source
returns the infinite sentinels (see `getBoundingBox`); this finite
rendering returns an arbitrary all-zero box, and no theorem below relies
on its value there. -/
def getBoundingBoxQ (polygon : List Point) : BBoxQ :=
  match polygon with
  | [] => { minLon := 0, maxLon := 0, minLat := 0, maxLat := 0 }
  | q :: rest =>
    rest.foldl bboxStep
      { minLon := q.1, maxLon := q.1, minLat := q.2, maxLat := q.2 }

/-- Membership of a point in a finite bounding box. -/
def inBBox (b : BBoxQ) (q : Point) : Prop :=
  b.minLon ≤ q.1 ∧ q.1 ≤ b.maxLon ∧ b.minLat ≤ q.2 ∧ q.2 ≤ b.maxLat

instance (b : BBoxQ) (q : Point) : Decidable (inBBox b q) := by
  unfold inBBox; infer_instance

/-- Source local `getRandomPointInPolygon`: a uniform sample inside the
bounding box.  Each call draws `Math.random()` twice (`randomLon` then
`randomLat`); the two draws are passed explicitly here. -/
def getRandomPointInPolygon (b : BBoxQ) (r1 r2 : ℚ) : Point :=
  (b.minLon + r1 * (b.maxLon - b.minLon),
   b.minLat + r2 * (b.maxLat - b.minLat))

/-- The description strings built by `detectAnomalies`.  Three are fixed
literals; the growth description is a template string whose only
interpolated datum is `forestGrowthPercentage.toFixed(1)`, embedded as the
percentage in integer tenths (`round (pct * 10)`). -/
inductive Desc where
  | growth (pctTenths : ℤ)
  | boundary
  | lulc
  | deforestation
deriving DecidableEq, Repr

/-- Source `AnomalyInfo` record. -/
structure AnomalyInfo where
  id : ℕ
  severity : Severity
  type : String
  description : Desc
  location : Point
deriving DecidableEq, Repr

/-- A feature of the `anomaly-points` GeoJSON collection. -/
structure PointFeature where
  id : ℕ
  severity : Severity
  type : String
  description : Desc
  coordinates : Point
deriving DecidableEq, Repr

/-- A feature of the `anomaly-areas` GeoJSON collection: its polygon ring
plus the `\x7bid, severity\x7d` properties the source attaches. -/
structure AreaFeature where
  id : ℕ
  severity : Severity
  coordinates : List Point
deriving DecidableEq, Repr

/-- The two GeoJSON layers `detectAnomalies` may store in
`anomalyLayersRef.current`. -/
inductive OverlayLayer where
  | areasLayer (features : List AreaFeature)
  | pointsLayer (features : List PointFeature)
deriving DecidableEq, Repr

/-- Component state touched by `detectAnomalies`: the `anomalies` React
state, the `anomalyLayersRef.current` list, and the cumulative log of
`window.addAnomalyLayer(id, name, ...)` invocations. -/
structure VerifState where
  anomalies : List AnomalyInfo
  anomalyLayers : List OverlayLayer
  registeredCalls : List (String × String)
deriving DecidableEq, Repr

/-- Inputs read by `detectAnomalies` from its environment: the result of
`getDrawnArea()` (`none` embeds `null`), the ambient `carbonMetrics`
(`none` embeds an absent value), and whether the global
`window.addAnomalyLayer` callback is installed. -/
structure DetectInput where
  drawnArea : Option (List Point)
  carbonMetrics : Option CarbonMetrics
  hasAddAnomalyLayer : Bool
deriving DecidableEq, Repr

/-- Rule 1 of `detectAnomalies`: the `hasHighGrowthAnomaly` push.  The
source computes the drawn-area center by two `reduce` means (= `centroid`)
and pushes the id-1 record exactly when `forestGrowthPercentage > 20`. -/
def growthAnomalies (drawnArea : List Point) (m : CarbonMetrics) :
    List AnomalyInfo :=
  let pct := calculateForestGrowthPercentage (some m)
  if pct > 20 then
    [{ id := 1
       severity := .high
       type := "Unusual Carbon Growth"
       description := .growth (round (pct * 10))
       location := centroid drawnArea }]
  else []

/-- Rules 2-4 of `detectAnomalies`: the `if (carbonMetrics.area)` block
(JS numeric truthiness = nonzero).  Each of the three pushes first samples
one point via `getRandomPointInPolygon`, consuming two random draws, so the
block consumes stream slots 0-5 in order boundary, LULC, deforestation. -/
def demoAnomalies (drawnArea : List Point) (m : CarbonMetrics)
    (rand : ℕ → ℚ) : List AnomalyInfo :=
  if m.area ≠ 0 then
    let b := getBoundingBoxQ drawnArea
    [{ id := 2
       severity := .medium
       type := "Boundary Inconsistency"
       description := .boundary
       location := getRandomPointInPolygon b (rand 0) (rand 1) },
     { id := 3
       severity := .medium
       type := "LULC Classification Error"
       description := .lulc
       location := getRandomPointInPolygon b (rand 2) (rand 3) },
     { id := 4
       severity := .high
       type := "Potential Deforestation"
       description := .deforestation
       location := getRandomPointInPolygon b (rand 4) (rand 5) }]
  else []

/-- The feature the source builds for one anomaly in the `anomaly-points`
collection: the anomaly fields as properties, its location as geometry. -/
def mkPointFeature (a : AnomalyInfo) : PointFeature :=
  { id := a.id
    severity := a.severity
    type := a.type
    description := a.description
    coordinates := a.location }

/-- The feature the source builds for one anomaly in the `anomaly-areas`
collection: a closed square ring of half-width `offset = 0.005` degrees
around the anomaly location, carrying `\x7bid, severity\x7d`. -/
def mkAreaFeature (a : AnomalyInfo) : AreaFeature :=
  let lon := a.location.1
  let lat := a.location.2
  let offset : ℚ := 0.005
  { id := a.id
    severity := a.severity
    coordinates :=
      [(lon - offset, lat - offset),
       (lon + offset, lat - offset),
       (lon + offset, lat + offset),
       (lon - offset, lat + offset),
       (lon - offset, lat - offset)] }

/-- The two `window.addAnomalyLayer` invocations made when the callback is
installed, in source order. -/
def addAnomalyLayerCalls (has : Bool) : List (String × String) :=
  if has then
    [("anomaly-areas", "Anomaly Areas"), ("anomaly-points", "Anomaly Points")]
  else []

/-- Source `detectAnomalies()` as a state transformer.  Guard: early
return when `getDrawnArea()` is `null` or `carbonMetrics` is absent (note
the JS guard `!drawnArea` does NOT fire on an empty array, which is
truthy).  Then: rule 1 push, rules 2-4 pushes, `setAnomalies`; and only
when the detected list is nonempty, construction of the two GeoJSON
layers, storing `[areasLayer, pointsLayer]` in the ref and invoking the
global registry callback for both layers. -/
def detectAnomalies : DetectInput → (ℕ → ℚ) → VerifState → VerifState
  | ⟨some drawnArea, some m, flag⟩, rand, st =>
    let detected := growthAnomalies drawnArea m ++ demoAnomalies drawnArea m rand
    let st1 : VerifState := { st with anomalies := detected }
    if detected.length > 0 then
      { st1 with
        anomalyLayers :=
          [.areasLayer (detected.map mkAreaFeature),
           .pointsLayer (detected.map mkPointFeature)]
        registeredCalls :=
          st1.registeredCalls ++ addAnomalyLayerCalls flag }
    else st1
  | ⟨none, _, _⟩, _, st => st
  | ⟨some _, none, _⟩, _, st => st

/-!  ## Helper lemmas  -/

/-- Membership in Synthesizer A output comes from a loop iteration. -/
lemma mem_generateAnomaliesAroundPoint {center : Point} {n : ℕ}
    {rand : ℕ → ℚ} {a : AnomalyPoint}
    (h : a ∈ generateAnomaliesAroundPoint center n rand) :
    ∃ i, i < n ∧ a = mkDummyAnomaly center rand i := by
  simp only [generateAnomaliesAroundPoint, List.mem_map, List.mem_range] at h
  obtain ⟨i, hi, rfl⟩ := h
  exact ⟨i, hi, rfl⟩

/-- Whichever branch of the layer-construction `if` is taken,
`detectAnomalies` stores the detected list in the `anomalies` state. -/
lemma detectAnomalies_anomalies (p : List Point) (m : CarbonMetrics)
    (flag : Bool) (rand : ℕ → ℚ) (st : VerifState) :
    (detectAnomalies ⟨some p, some m, flag⟩ rand st).anomalies =
      growthAnomalies p m ++ demoAnomalies p m rand := by
  unfold detectAnomalies
  dsimp only
  split <;> rfl

/-- The finite bounding-box fold keeps lower bounds below upper bounds. -/
lemma foldl_bboxStep_min_le_max (l : List Point) (b : BBoxQ)
    (h1 : b.minLon ≤ b.maxLon) (h2 : b.minLat ≤ b.maxLat) :
    (l.foldl bboxStep b).minLon ≤ (l.foldl bboxStep b).maxLon ∧
    (l.foldl bboxStep b).minLat ≤ (l.foldl bboxStep b).maxLat := by
  induction l generalizing b with
  | nil => exact ⟨h1, h2⟩
  | cons q rest ih =>
    refine ih (bboxStep b q) ?_ ?_
    · exact le_trans (min_le_right _ _) (le_max_right _ _)
    · exact le_trans (min_le_right _ _) (le_max_right _ _)

/-- For a nonempty polygon the finite bounding box is a genuine box. -/
lemma getBoundingBoxQ_min_le_max (q : Point) (rest : List Point) :
    (getBoundingBoxQ (q :: rest)).minLon ≤ (getBoundingBoxQ (q :: rest)).maxLon ∧
    (getBoundingBoxQ (q :: rest)).minLat ≤ (getBoundingBoxQ (q :: rest)).maxLat := by
  exact foldl_bboxStep_min_le_max rest _ le_rfl le_rfl

/-- The fold only widens the box. -/
lemma foldl_bboxStep_widens (l : List Point) (b : BBoxQ) :
    (l.foldl bboxStep b).minLon ≤ b.minLon ∧ b.maxLon ≤ (l.foldl bboxStep b).maxLon ∧
    (l.foldl bboxStep b).minLat ≤ b.minLat ∧ b.maxLat ≤ (l.foldl bboxStep b).maxLat := by
  induction l generalizing b with
  | nil => exact ⟨le_rfl, le_rfl, le_rfl, le_rfl⟩
  | cons q rest ih =>
    obtain ⟨w1, w2, w3, w4⟩ := ih (bboxStep b q)
    exact ⟨le_trans w1 (min_le_left _ _), le_trans (le_max_left _ _) w2,
           le_trans w3 (min_le_left _ _), le_trans (le_max_left _ _) w4⟩

/-- Every folded-in vertex is covered by the resulting box. -/
lemma foldl_bboxStep_covers (l : List Point) (b : BBoxQ) (q : Point)
    (hq : q ∈ l) : inBBox (l.foldl bboxStep b) q := by
  induction l generalizing b with
  | nil => cases hq
  | cons p0 rest ih =>
    rcases List.mem_cons.mp hq with rfl | hmem
    · obtain ⟨w1, w2, w3, w4⟩ := foldl_bboxStep_widens rest (bboxStep b q)
      refine ⟨le_trans w1 (min_le_right _ _), le_trans (le_max_right _ _) w2,
              le_trans w3 (min_le_right _ _), le_trans (le_max_right _ _) w4⟩
    · exact ih (bboxStep b p0) hmem

/-- Every vertex of a polygon lies inside its finite bounding box. -/
lemma getBoundingBoxQ_covers (p : List Point) (q : Point) (hq : q ∈ p) :
    inBBox (getBoundingBoxQ p) q := by
  match p, hq with
  | p0 :: rest, hq =>
    rcases List.mem_cons.mp hq with rfl | hmem
    · show inBBox (rest.foldl bboxStep _) q
      obtain ⟨w1, w2, w3, w4⟩ :=
        foldl_bboxStep_widens rest
          { minLon := q.1, maxLon := q.1, minLat := q.2, maxLat := q.2 }
      exact ⟨w1, w2, w3, w4⟩
    · exact foldl_bboxStep_covers rest _ q hmem

/-- Every bound of the folded box is the initial bound or a vertex
coordinate (the box is tight). -/
lemma foldl_bboxStep_attained (l : List Point) (b : BBoxQ) :
    ((l.foldl bboxStep b).minLon = b.minLon ∨
       ∃ q ∈ l, (l.foldl bboxStep b).minLon = q.1) ∧
    ((l.foldl bboxStep b).maxLon = b.maxLon ∨
       ∃ q ∈ l, (l.foldl bboxStep b).maxLon = q.1) ∧
    ((l.foldl bboxStep b).minLat = b.minLat ∨
       ∃ q ∈ l, (l.foldl bboxStep b).minLat = q.2) ∧
    ((l.foldl bboxStep b).maxLat = b.maxLat ∨
       ∃ q ∈ l, (l.foldl bboxStep b).maxLat = q.2) := by
  induction l generalizing b with
  | nil => exact ⟨Or.inl rfl, Or.inl rfl, Or.inl rfl, Or.inl rfl⟩
  | cons p0 rest ih =>
    obtain ⟨a1, a2, a3, a4⟩ := ih (bboxStep b p0)
    refine ⟨?_, ?_, ?_, ?_⟩
    · rcases a1 with h | ⟨q, hq, hval⟩
      · rcases min_cases b.minLon p0.1 with ⟨hm, _⟩ | ⟨hm, _⟩
        · exact Or.inl (by simpa [bboxStep, hm] using h)
        · exact Or.inr ⟨p0, List.mem_cons_self _ _, by simpa [bboxStep, hm] using h⟩
      · exact Or.inr ⟨q, List.mem_cons_of_mem _ hq, hval⟩
    · rcases a2 with h | ⟨q, hq, hval⟩
      · rcases max_cases b.maxLon p0.1 with ⟨hm, _⟩ | ⟨hm, _⟩
        · exact Or.inl (by simpa [bboxStep, hm] using h)
        · exact Or.inr ⟨p0, List.mem_cons_self _ _, by simpa [bboxStep, hm] using h⟩
      · exact Or.inr ⟨q, List.mem_cons_of_mem _ hq, hval⟩
    · rcases a3 with h | ⟨q, hq, hval⟩
      · rcases min_cases b.minLat p0.2 with ⟨hm, _⟩ | ⟨hm, _⟩
        · exact Or.inl (by simpa [bboxStep, hm] using h)
        · exact Or.inr ⟨p0, List.mem_cons_self _ _, by simpa [bboxStep, hm] using h⟩
      · exact Or.inr ⟨q, List.mem_cons_of_mem _ hq, hval⟩
    · rcases a4 with h | ⟨q, hq, hval⟩
      · rcases max_cases b.maxLat p0.2 with ⟨hm, _⟩ | ⟨hm, _⟩
        · exact Or.inl (by simpa [bboxStep, hm] using h)
        · exact Or.inr ⟨p0, List.mem_cons_self _ _, by simpa [bboxStep, hm] using h⟩
      · exact Or.inr ⟨q, List.mem_cons_of_mem _ hq, hval⟩

/-- Minimality: any box covering all vertices contains the computed box. -/
lemma getBoundingBoxQ_minimal (p : List Point) (b : BBoxQ) (hne : p ≠ [])
    (hcov : ∀ q ∈ p, inBBox b q) :
    b.minLon ≤ (getBoundingBoxQ p).minLon ∧
    (getBoundingBoxQ p).maxLon ≤ b.maxLon ∧
    b.minLat ≤ (getBoundingBoxQ p).minLat ∧
    (getBoundingBoxQ p).maxLat ≤ b.maxLat := by
  match p with
  | [] => exact absurd rfl hne
  | p0 :: rest =>
    obtain ⟨a1, a2, a3, a4⟩ :=
      foldl_bboxStep_attained rest
        { minLon := p0.1, maxLon := p0.1, minLat := p0.2, maxLat := p0.2 }
    have hp0 := hcov p0 (List.mem_cons_self _ _)
    refine ⟨?_, ?_, ?_, ?_⟩
    · show b.minLon ≤ (rest.foldl bboxStep _).minLon
      rcases a1 with h | ⟨q, hq, hval⟩
      · rw [h]; exact hp0.1
      · rw [hval]; exact (hcov q (List.mem_cons_of_mem _ hq)).1
    · show (rest.foldl bboxStep _).maxLon ≤ b.maxLon
      rcases a2 with h | ⟨q, hq, hval⟩
      · rw [h]; exact hp0.2.1
      · rw [hval]; exact (hcov q (List.mem_cons_of_mem _ hq)).2.1
    · show b.minLat ≤ (rest.foldl bboxStep _).minLat
      rcases a3 with h | ⟨q, hq, hval⟩
      · rw [h]; exact hp0.2.2.1
      · rw [hval]; exact (hcov q (List.mem_cons_of_mem _ hq)).2.2.1
    · show (rest.foldl bboxStep _).maxLat ≤ b.maxLat
      rcases a4 with h | ⟨q, hq, hval⟩
      · rw [h]; exact hp0.2.2.2
      · rw [hval]; exact (hcov q (List.mem_cons_of_mem _ hq)).2.2.2

/-- A bounding-box sample from a valid random pair stays in the box. -/
lemma getRandomPointInPolygon_inBBox (b : BBoxQ) (r1 r2 : ℚ)
    (hb1 : b.minLon ≤ b.maxLon) (hb2 : b.minLat ≤ b.maxLat)
    (h1 : 0 ≤ r1) (h1l : r1 < 1) (h2 : 0 ≤ r2) (h2l : r2 < 1) :
    inBBox b (getRandomPointInPolygon b r1 r2) := by
  unfold getRandomPointInPolygon inBBox
  dsimp only
  have d1 : (0 : ℚ) ≤ b.maxLon - b.minLon := by linarith
  have d2 : (0 : ℚ) ≤ b.maxLat - b.minLat := by linarith
  have m1 : 0 ≤ r1 * (b.maxLon - b.minLon) := mul_nonneg h1 d1
  have m2 : 0 ≤ r2 * (b.maxLat - b.minLat) := mul_nonneg h2 d2
  have u1 : r1 * (b.maxLon - b.minLon) ≤ b.maxLon - b.minLon := by
    nlinarith
  have u2 : r2 * (b.maxLat - b.minLat) ≤ b.maxLat - b.minLat := by
    nlinarith
  exact ⟨by linarith, by linarith, by linarith, by linarith⟩

/-- `toERat` is monotone, hence commutes with `min` and `max`. -/
lemma toERat_mono : Monotone toERat := by
  intro a b h
  exact WithBot.coe_le_coe.mpr (WithTop.coe_le_coe.mpr h)

/-- Below `+∞`, `min` with the sentinel is the identity. -/
lemma min_posInf (x : ℚ) : min posInf (toERat x) = toERat x :=
  min_eq_right (WithBot.coe_le_coe.mpr le_top)

/-- Above `-∞`, `max` with the sentinel is the identity. -/
lemma max_negInf (x : ℚ) : max negInf (toERat x) = toERat x :=
  max_eq_right bot_le

/-- The `ERat` fold started from a finite box tracks the finite fold. -/
lemma foldl_bboxStepE_toERat (l : List Point) (b : BBoxQ) :
    l.foldl bboxStepE
      { minLon := toERat b.minLon, maxLon := toERat b.maxLon,
        minLat := toERat b.minLat, maxLat := toERat b.maxLat } =
    { minLon := toERat (l.foldl bboxStep b).minLon,
      maxLon := toERat (l.foldl bboxStep b).maxLon,
      minLat := toERat (l.foldl bboxStep b).minLat,
      maxLat := toERat (l.foldl bboxStep b).maxLat } := by
  induction l generalizing b with
  | nil => rfl
  | cons q rest ih =>
    have hstep :
        bboxStepE
          { minLon := toERat b.minLon, maxLon := toERat b.maxLon,
            minLat := toERat b.minLat, maxLat := toERat b.maxLat } q =
        { minLon := toERat (bboxStep b q).minLon,
          maxLon := toERat (bboxStep b q).maxLon,
          minLat := toERat (bboxStep b q).minLat,
          maxLat := toERat (bboxStep b q).maxLat } := by
      simp only [bboxStepE, bboxStep]
      rw [toERat_mono.map_min, toERat_mono.map_max,
          toERat_mono.map_min, toERat_mono.map_max]
    show (q :: rest).foldl bboxStepE _ = _
    rw [List.foldl_cons, hstep, ih (bboxStep b q), List.foldl_cons]

/-- Bridge: on a nonempty polygon the faithful sentinel-initialised
`getBoundingBox` agrees (under `toERat`) with the finite
`getBoundingBoxQ` used by the `detectAnomalies` embedding. -/
lemma getBoundingBox_cons (q : Point) (rest : List Point) :
    getBoundingBox (q :: rest) =
    { minLon := toERat (getBoundingBoxQ (q :: rest)).minLon,
      maxLon := toERat (getBoundingBoxQ (q :: rest)).maxLon,
      minLat := toERat (getBoundingBoxQ (q :: rest)).minLat,
      maxLat := toERat (getBoundingBoxQ (q :: rest)).maxLat } := by
  show (q :: rest).foldl bboxStepE _ = _
  rw [List.foldl_cons]
  have hfirst :
      bboxStepE
        { minLon := posInf, maxLon := negInf, minLat := posInf, maxLat := negInf } q =
      { minLon := toERat q.1, maxLon := toERat q.1,
        minLat := toERat q.2, maxLat := toERat q.2 } := by
    simp only [bboxStepE, min_posInf, max_negInf]
  rw [hfirst]
  exact foldl_bboxStepE_toERat rest
    { minLon := q.1, maxLon := q.1, minLat := q.2, maxLat := q.2 }

/-- Synthesizer A always delegates to `generateAnomaliesAroundPoint` with
some reference point. -/
lemma generateDummyAnomalies_delegates (po : Option (List Point)) (n : ℕ)
    (rand : ℕ → ℚ) :
    ∃ c, generateDummyAnomalies po n rand =
      generateAnomaliesAroundPoint c n rand := by
  cases po with
  | none => exact ⟨defaultCenter, rfl⟩
  | some poly =>
    by_cases h : poly.length < 3
    · exact ⟨defaultCenter, by simp [generateDummyAnomalies, h]⟩
    · exact ⟨centroid poly, by simp [generateDummyAnomalies, h]⟩

/-- The record Synthesizer A generates from the all-zero random stream
with the default center: both offsets are `-0.02`, type index and severity
index are 0.  Used as a concrete witness input below. -/
def sampleAnomalyA : AnomalyPoint :=
  { id := 1
    position := (101.4183, 0.4904)
    severity := .high
    type := "Deforestation"
    description := "Potential unauthorized clearing detected"
    radius := 300 }

/-!  ## Claim theorems  -/

/-- C7: If the polygon argument to `generateDummyAnomalies` is null or has
fewer than 3 vertices, the reference point is the fixed default center
`[101.4383, 0.5104]`; otherwise it is the centroid of the polygon, the
arithmetic mean of all vertex longitudes and of all vertex latitudes, so
that `centroid [[0,0],[2,0],[2,2],[0,2]] = [1,1]`. -/
theorem C7_reference_point :
    (∀ (po : Option (List Point)) (n : ℕ) (rand : ℕ → ℚ),
      generateDummyAnomalies po n rand =
        generateAnomaliesAroundPoint
          (match po with
           | none => defaultCenter
           | some poly =>
             if poly.length < 3 then defaultCenter else centroid poly)
          n rand) ∧
    defaultCenter = (101.4383, 0.5104) ∧
    (∀ poly : List Point,
      centroid poly =
        ((poly.map Prod.fst).sum / (poly.length : ℚ),
         (poly.map Prod.snd).sum / (poly.length : ℚ))) ∧
    centroid [(0, 0), (2, 0), (2, 2), (0, 2)] = (1, 1) := by
  refine ⟨?_, rfl, fun _ => rfl, by norm_num [centroid]⟩
  intro po n rand
  cases po with
  | none => rfl
  | some poly =>
    by_cases h : poly.length < 3
    · simp [generateDummyAnomalies, h]
    · simp [generateDummyAnomalies, h]

/-- C8: Every record produced by Synthesizer A has its `radius` derived
from its `severity` by the fixed lookup high→300, medium→200, low→150. -/
theorem C8_radius_is_function_of_severity :
    radiusMap .high = 300 ∧ radiusMap .medium = 200 ∧ radiusMap .low = 150 ∧
    ∀ (po : Option (List Point)) (n : ℕ) (rand : ℕ → ℚ)
      (a : AnomalyPoint), a ∈ generateDummyAnomalies po n rand →
        a.radius = radiusMap a.severity := by
  refine ⟨rfl, rfl, rfl, ?_⟩
  intro po n rand a ha
  obtain ⟨c, hc⟩ := generateDummyAnomalies_delegates po n rand
  rw [hc] at ha
  obtain ⟨i, _, rfl⟩ := mem_generateAnomaliesAroundPoint ha
  rfl

/-- C8 witness: the single record generated from the all-zero random
stream has severity `high` and radius `radiusMap high = 300`. -/
theorem C8_witness :
    sampleAnomalyA ∈ generateDummyAnomalies none 1 (fun _ => 0) ∧
    sampleAnomalyA.radius = radiusMap sampleAnomalyA.severity := by
  have heq : sampleAnomalyA = mkDummyAnomaly defaultCenter (fun _ => 0) 0 := by
    simp only [sampleAnomalyA, mkDummyAnomaly, defaultCenter, scale,
      severityLevels, anomalyTypes, radiusMap, AnomalyPoint.mk.injEq,
      Prod.mk.injEq]
    norm_num
  have hm : sampleAnomalyA ∈ generateDummyAnomalies none 1 (fun _ => 0) := by
    rw [heq]
    show mkDummyAnomaly defaultCenter (fun _ => 0) 0 ∈
      (List.range 1).map (mkDummyAnomaly defaultCenter (fun _ => 0))
    exact List.mem_map_of_mem _ (by simp)
  exact ⟨hm, C8_radius_is_function_of_severity.2.2.2 none 1 (fun _ => 0) _ hm⟩

/-- C9: The 10-slot severity list holds exactly 2 `high`, 5 `medium` and
3 `low` entries (so a uniform index draw yields 20/50/30 percent), each
generated record draws its severity by indexing this list with the floor
of a random draw times 10, and severity is always one of the three
levels. -/
theorem C9_severity_weighted_draw :
    severityLevels.length = 10 ∧
    severityLevels.count .high = 2 ∧
    severityLevels.count .medium = 5 ∧
    severityLevels.count .low = 3 ∧
    ∀ (po : Option (List Point)) (n : ℕ) (rand : ℕ → ℚ)
      (a : AnomalyPoint), a ∈ generateDummyAnomalies po n rand →
        (∃ k, a.severity = severityLevels.getD (⌊rand k * 10⌋).toNat .medium) ∧
        (a.severity = .high ∨ a.severity = .medium ∨ a.severity = .low) := by
  refine ⟨rfl, rfl, rfl, rfl, ?_⟩
  intro po n rand a ha
  obtain ⟨c, hc⟩ := generateDummyAnomalies_delegates po n rand
  rw [hc] at ha
  obtain ⟨i, _, rfl⟩ := mem_generateAnomaliesAroundPoint ha
  refine ⟨⟨4 * i + 3, rfl⟩, ?_⟩
  cases h : (mkDummyAnomaly c rand i).severity
  · exact Or.inl rfl
  · exact Or.inr (Or.inl rfl)
  · exact Or.inr (Or.inr rfl)

/-- C9 witness: the record generated from the all-zero random stream
draws slot `⌊0 * 10⌋ = 0` of the severity list, i.e. `high`. -/
theorem C9_witness :
    sampleAnomalyA ∈ generateDummyAnomalies none 1 (fun _ => 0) ∧
    ((∃ k : ℕ, sampleAnomalyA.severity =
        severityLevels.getD (⌊(0 : ℚ) * 10⌋).toNat .medium) ∧
     (sampleAnomalyA.severity = .high ∨ sampleAnomalyA.severity = .medium ∨
      sampleAnomalyA.severity = .low)) := by
  have heq : sampleAnomalyA = mkDummyAnomaly defaultCenter (fun _ => 0) 0 := by
    simp only [sampleAnomalyA, mkDummyAnomaly, defaultCenter, scale,
      severityLevels, anomalyTypes, radiusMap, AnomalyPoint.mk.injEq,
      Prod.mk.injEq]
    norm_num
  have hm : sampleAnomalyA ∈ generateDummyAnomalies none 1 (fun _ => 0) := by
    rw [heq]
    show mkDummyAnomaly defaultCenter (fun _ => 0) 0 ∈
      (List.range 1).map (mkDummyAnomaly defaultCenter (fun _ => 0))
    exact List.mem_map_of_mem _ (by simp)
  exact ⟨hm, C9_severity_weighted_draw.2.2.2.2 none 1 (fun _ => 0) _ hm⟩

/-- C2: For every polygon with at least 3 vertices, every count `n` and
every valid random stream, Synthesizer A returns exactly `n` records, and
every position lies within `0.02` degrees of the polygon centroid on each
axis. -/
theorem C2_count_and_spread (p : List Point) (n : ℕ) (rand : ℕ → ℚ)
    (hp : 3 ≤ p.length) (hr : RandValid rand) :
    (generateDummyAnomalies (some p) n rand).length = n ∧
    ∀ a ∈ generateDummyAnomalies (some p) n rand,
      |a.position.1 - (centroid p).1| ≤ 0.02 ∧
      |a.position.2 - (centroid p).2| ≤ 0.02 := by
  have heq : generateDummyAnomalies (some p) n rand =
      generateAnomaliesAroundPoint (centroid p) n rand := by
    simp [generateDummyAnomalies, Nat.not_lt.mpr hp]
  constructor
  · rw [heq]
    simp [generateAnomaliesAroundPoint]
  · intro a ha
    rw [heq] at ha
    obtain ⟨i, _, rfl⟩ := mem_generateAnomaliesAroundPoint ha
    have h1 := hr (4 * i)
    have h2 := hr (4 * i + 1)
    simp only [mkDummyAnomaly, scale]
    constructor
    · rw [abs_le]
      constructor <;> nlinarith [h1.1, h1.2]
    · rw [abs_le]
      constructor <;> nlinarith [h2.1, h2.2]

/-- C2 witness: the square polygon, count 2 and the constant one-half
stream satisfy the hypotheses; both records stay within the spread. -/
theorem C2_witness :
    3 ≤ ([(0, 0), (2, 0), (2, 2), (0, 2)] : List Point).length ∧
    ((generateDummyAnomalies (some [(0, 0), (2, 0), (2, 2), (0, 2)]) 2
        (fun _ => 1/2)).length = 2 ∧
     ∀ a ∈ generateDummyAnomalies (some [(0, 0), (2, 0), (2, 2), (0, 2)]) 2
        (fun _ => 1/2),
       |a.position.1 - (centroid [(0, 0), (2, 0), (2, 2), (0, 2)]).1| ≤ 0.02 ∧
       |a.position.2 - (centroid [(0, 0), (2, 0), (2, 2), (0, 2)]).2| ≤ 0.02) :=
  ⟨by decide,
   C2_count_and_spread [(0, 0), (2, 0), (2, 2), (0, 2)] 2 (fun _ => 1/2)
     (by decide) (fun _ => by norm_num)⟩

/-- A concrete valid drawn polygon (unit-free square), for witnesses. -/
def samplePolygon : List Point := [(0, 0), (2, 0), (2, 2), (0, 2)]

/-- Concrete metrics with a 33.3 percent growth ratio and truthy area. -/
def sampleMetrics : CarbonMetrics :=
  { carbonStocks := 120, forestGrowth := 30, area := 100 }

/-- Concrete metrics with zero growth and falsy (zero) area. -/
def sampleMetricsZero : CarbonMetrics :=
  { carbonStocks := 120, forestGrowth := 0, area := 0 }

/-- The component state at mount: everything empty. -/
def initialState : VerifState :=
  { anomalies := [], anomalyLayers := [], registeredCalls := [] }

/-- A state carrying pre-existing layers and registry calls, to exhibit
that a run producing no anomalies leaves both untouched. -/
def sampleStateWithLayers : VerifState :=
  { anomalies := []
    anomalyLayers := [OverlayLayer.pointsLayer []]
    registeredCalls := [("a", "b")] }

/-- A concrete anomaly record, for the overlay witness. -/
def sampleAnomalyB : AnomalyInfo :=
  { id := 1
    severity := .high
    type := "Unusual Carbon Growth"
    description := .growth 333
    location := (1, 1) }

/-- C1: `detect` computes the growth percentage as
`forestGrowth / (carbonStocks - forestGrowth) * 100` with a zero
denominator yielding 0, and the resulting anomaly set contains a
high-severity "Unusual Carbon Growth" anomaly at the polygon centroid
whose description interpolates the percentage to one decimal place
exactly when the percentage exceeds 20. -/
theorem C1_growth_anomaly_iff (p : List Point) (m : CarbonMetrics)
    (flag : Bool) (rand : ℕ → ℚ) (st : VerifState) :
    calculateForestGrowthPercentage (some m) =
      (if m.carbonStocks - m.forestGrowth = 0 then 0
       else m.forestGrowth / (m.carbonStocks - m.forestGrowth) * 100) ∧
    ((∃ a ∈ (detectAnomalies ⟨some p, some m, flag⟩ rand st).anomalies,
        a.severity = .high ∧ a.type = "Unusual Carbon Growth" ∧
        a.location = centroid p ∧
        a.description =
          .growth (round (calculateForestGrowthPercentage (some m) * 10))) ↔
      20 < calculateForestGrowthPercentage (some m)) := by
  refine ⟨rfl, ?_⟩
  rw [detectAnomalies_anomalies]
  constructor
  · rintro ⟨a, ha, hsev, htype, hloc, hdesc⟩
    rcases List.mem_append.mp ha with hg | hd
    · by_contra hle
      rw [growthAnomalies] at hg
      rw [if_neg hle] at hg
      exact absurd hg (List.not_mem_nil _)
    · exfalso
      rw [demoAnomalies] at hd
      by_cases harea : m.area ≠ 0
      · rw [if_pos harea] at hd
        rcases List.mem_cons.mp hd with rfl | hd
        · exact (by decide :
            ¬("Boundary Inconsistency" : String) = "Unusual Carbon Growth") htype
        rcases List.mem_cons.mp hd with rfl | hd
        · exact (by decide :
            ¬("LULC Classification Error" : String) = "Unusual Carbon Growth") htype
        rcases List.mem_cons.mp hd with rfl | hd
        · exact (by decide :
            ¬("Potential Deforestation" : String) = "Unusual Carbon Growth") htype
        · exact absurd hd (List.not_mem_nil _)
      · rw [if_neg harea] at hd
        exact absurd hd (List.not_mem_nil _)
  · intro h
    refine ⟨{ id := 1, severity := .high, type := "Unusual Carbon Growth",
              description := .growth
                (round (calculateForestGrowthPercentage (some m) * 10)),
              location := centroid p }, ?_, rfl, rfl, rfl, rfl⟩
    apply List.mem_append_left
    rw [growthAnomalies]
    rw [if_pos h]
    exact List.mem_singleton_self _

/-- C4 (amended): when `getDrawnArea()` is `null` or `carbonMetrics` is
absent, `detectAnomalies` returns immediately: no anomalies, no overlay
layers, no registry calls are produced and the state is unchanged (and,
being total, the embedding never throws).  The original claim also
covered an *empty* polygon array; the counterexample below shows the
guard does not fire in that case. -/
theorem C4_guard_empty_result (inp : DetectInput) (rand : ℕ → ℚ)
    (st : VerifState) (h : inp.drawnArea = none ∨ inp.carbonMetrics = none) :
    detectAnomalies inp rand st = st := by
  obtain ⟨da, cm, fl⟩ := inp
  rcases h with h | h
  · cases h
    rfl
  · cases h
    cases da with
    | none => rfl
    | some q => rfl

/-- C4 witness: a `null` drawn area leaves the initial state unchanged. -/
theorem C4_witness :
    detectAnomalies ⟨none, some sampleMetrics, false⟩ (fun _ => 0)
      initialState = initialState :=
  C4_guard_empty_result _ _ _ (Or.inl rfl)

/-- C4 counterexample: an empty-but-present polygon array is truthy in
JS, so the guard does not fire; with truthy `area` the run produces the
three demonstration anomalies, not an empty result (their coordinates
are the JS `NaN` artifacts of degenerate geometry, rendered here by the
total `ℚ` operations; the record count faithfully matches the source). -/
theorem C4_counterexample :
    (detectAnomalies ⟨some [], some ⟨120, 0, 1⟩, false⟩ (fun _ => 1/2)
        initialState).anomalies.length = 3 ∧
    (detectAnomalies ⟨some [], some ⟨120, 0, 1⟩, false⟩ (fun _ => 1/2)
        initialState).anomalies ≠ [] := by
  have hg : growthAnomalies [] ⟨120, 0, 1⟩ = [] := by
    rw [growthAnomalies]
    rw [if_neg]
    simp only [calculateForestGrowthPercentage]
    norm_num
  have hd : (demoAnomalies [] ⟨120, 0, 1⟩ (fun _ => 1/2)).length = 3 := by
    rw [demoAnomalies]
    rw [if_pos (by norm_num)]
    rfl
  constructor
  · rw [detectAnomalies_anomalies, List.length_append, hg, hd]
    simp
  · rw [detectAnomalies_anomalies]
    intro hnil
    have := congrArg List.length hnil
    rw [List.length_append, hg, hd] at this
    simp at this

/-- C10: a run with a present polygon and metrics whose growth percentage
is at most 20 and whose `area` is falsy produces zero anomalies: the
anomaly state is set to the empty list while the layer-construction block
is skipped entirely, so the stored overlay layers and the registry-call
log are exactly those of the previous state. -/
theorem C10_empty_run_skips_layers (p : List Point) (m : CarbonMetrics)
    (flag : Bool) (rand : ℕ → ℚ) (st : VerifState)
    (hpct : calculateForestGrowthPercentage (some m) ≤ 20)
    (harea : m.area = 0) :
    detectAnomalies ⟨some p, some m, flag⟩ rand st =
      { st with anomalies := [] } := by
  have hg : growthAnomalies p m = [] := by
    rw [growthAnomalies]
    rw [if_neg (not_lt.mpr hpct)]
  have hd : demoAnomalies p m rand = [] := by
    rw [demoAnomalies]
    rw [if_neg (by simpa using harea)]
  show (let detected := growthAnomalies p m ++ demoAnomalies p m rand;
        let st1 : VerifState := { st with anomalies := detected };
        if detected.length > 0 then
          { st1 with
            anomalyLayers :=
              [.areasLayer (detected.map mkAreaFeature),
               .pointsLayer (detected.map mkPointFeature)]
            registeredCalls :=
              st1.registeredCalls ++ addAnomalyLayerCalls flag }
        else st1) = { st with anomalies := [] }
  simp only [hg, hd, List.nil_append, List.length_nil, gt_iff_lt,
    lt_self_iff_false, if_false]

/-- C10 witness: zero growth and zero area over the sample polygon leave
the pre-existing layers and registry log of the state untouched while the
anomaly list becomes empty. -/
theorem C10_witness :
    calculateForestGrowthPercentage (some sampleMetricsZero) ≤ 20 ∧
    sampleMetricsZero.area = 0 ∧
    detectAnomalies ⟨some samplePolygon, some sampleMetricsZero, true⟩
        (fun _ => 1/2) sampleStateWithLayers =
      { sampleStateWithLayers with anomalies := [] } :=
  ⟨by norm_num [calculateForestGrowthPercentage, sampleMetricsZero], rfl,
   C10_empty_run_skips_layers samplePolygon sampleMetricsZero true
     (fun _ => 1/2) sampleStateWithLayers
     (by norm_num [calculateForestGrowthPercentage, sampleMetricsZero]) rfl⟩

/-- C3: for every valid polygon and any metrics with truthy `area`, the
run emits exactly the three fixed demonstration anomalies with ids 2, 3,
4, severities medium, medium, high and fixed types, appended after the
growth anomaly (present or not) in the order boundary, LULC,
deforestation; each of their sampled locations lies inside the polygon
bounding box. -/
theorem C3_demo_anomalies (p : List Point) (m : CarbonMetrics)
    (flag : Bool) (rand : ℕ → ℚ) (st : VerifState)
    (hp : 3 ≤ p.length) (ha : m.area ≠ 0) (hr : RandValid rand) :
    (detectAnomalies ⟨some p, some m, flag⟩ rand st).anomalies =
      growthAnomalies p m ++
        [{ id := 2, severity := .medium, type := "Boundary Inconsistency",
           description := .boundary,
           location := getRandomPointInPolygon (getBoundingBoxQ p)
             (rand 0) (rand 1) },
         { id := 3, severity := .medium, type := "LULC Classification Error",
           description := .lulc,
           location := getRandomPointInPolygon (getBoundingBoxQ p)
             (rand 2) (rand 3) },
         { id := 4, severity := .high, type := "Potential Deforestation",
           description := .deforestation,
           location := getRandomPointInPolygon (getBoundingBoxQ p)
             (rand 4) (rand 5) }] ∧
    inBBox (getBoundingBoxQ p)
      (getRandomPointInPolygon (getBoundingBoxQ p) (rand 0) (rand 1)) ∧
    inBBox (getBoundingBoxQ p)
      (getRandomPointInPolygon (getBoundingBoxQ p) (rand 2) (rand 3)) ∧
    inBBox (getBoundingBoxQ p)
      (getRandomPointInPolygon (getBoundingBoxQ p) (rand 4) (rand 5)) := by
  obtain ⟨q, rest, rfl⟩ : ∃ q rest, p = q :: rest := by
    cases p with
    | nil => simp at hp
    | cons q rest => exact ⟨q, rest, rfl⟩
  obtain ⟨hb1, hb2⟩ := getBoundingBoxQ_min_le_max q rest
  refine ⟨?_, ?_, ?_, ?_⟩
  · rw [detectAnomalies_anomalies]
    rw [demoAnomalies]
    rw [if_pos ha]
  · exact getRandomPointInPolygon_inBBox _ _ _ hb1 hb2
      (hr 0).1 (hr 0).2 (hr 1).1 (hr 1).2
  · exact getRandomPointInPolygon_inBBox _ _ _ hb1 hb2
      (hr 2).1 (hr 2).2 (hr 3).1 (hr 3).2
  · exact getRandomPointInPolygon_inBBox _ _ _ hb1 hb2
      (hr 4).1 (hr 4).2 (hr 5).1 (hr 5).2

/-- C3 witness: the sample square polygon, the 33.3 percent metrics and
the constant one-half stream satisfy the hypotheses. -/
theorem C3_witness :
    3 ≤ samplePolygon.length ∧ sampleMetrics.area ≠ 0 ∧
    ((detectAnomalies ⟨some samplePolygon, some sampleMetrics, true⟩
        (fun _ => 1/2) initialState).anomalies =
      growthAnomalies samplePolygon sampleMetrics ++
        [{ id := 2, severity := .medium, type := "Boundary Inconsistency",
           description := .boundary,
           location := getRandomPointInPolygon (getBoundingBoxQ samplePolygon)
             (1/2) (1/2) },
         { id := 3, severity := .medium, type := "LULC Classification Error",
           description := .lulc,
           location := getRandomPointInPolygon (getBoundingBoxQ samplePolygon)
             (1/2) (1/2) },
         { id := 4, severity := .high, type := "Potential Deforestation",
           description := .deforestation,
           location := getRandomPointInPolygon (getBoundingBoxQ samplePolygon)
             (1/2) (1/2) }] ∧
     inBBox (getBoundingBoxQ samplePolygon)
       (getRandomPointInPolygon (getBoundingBoxQ samplePolygon) (1/2) (1/2)) ∧
     inBBox (getBoundingBoxQ samplePolygon)
       (getRandomPointInPolygon (getBoundingBoxQ samplePolygon) (1/2) (1/2)) ∧
     inBBox (getBoundingBoxQ samplePolygon)
       (getRandomPointInPolygon (getBoundingBoxQ samplePolygon) (1/2) (1/2))) :=
  ⟨by decide, by norm_num [sampleMetrics],
   C3_demo_anomalies samplePolygon sampleMetrics true (fun _ => 1/2)
     initialState (by decide) (by norm_num [sampleMetrics])
     (fun _ => by norm_num)⟩

/-- C5: the source `getBoundingBox` applied to an empty vertex list
silently returns the sentinel box `(+∞, -∞, +∞, -∞)` instead of failing
with an `InvalidGeometry` error as the claim requires (this is the
divergence); on nonempty input it does return the minimal axis-aligned
rectangle: every vertex is covered, and the computed box is contained in
any covering box. -/
theorem C5_bounding_box_sentinels :
    getBoundingBox [] =
      { minLon := posInf, maxLon := negInf,
        minLat := posInf, maxLat := negInf } ∧
    (∀ (p : List Point), ∀ q ∈ p, inBBox (getBoundingBoxQ p) q) ∧
    (∀ (p : List Point) (b : BBoxQ), p ≠ [] → (∀ q ∈ p, inBBox b q) →
      b.minLon ≤ (getBoundingBoxQ p).minLon ∧
      (getBoundingBoxQ p).maxLon ≤ b.maxLon ∧
      b.minLat ≤ (getBoundingBoxQ p).minLat ∧
      (getBoundingBoxQ p).maxLat ≤ b.maxLat) :=
  ⟨rfl, getBoundingBoxQ_covers, getBoundingBoxQ_minimal⟩

/-- C5 witness: on the sample square, the vertex `(2, 2)` is covered and
the box `[0,2] × [0,2]`, which covers all vertices, contains the
computed box. -/
theorem C5_witness :
    inBBox (getBoundingBoxQ samplePolygon) (2, 2) ∧
    ((0 : ℚ) ≤ (getBoundingBoxQ samplePolygon).minLon ∧
     (getBoundingBoxQ samplePolygon).maxLon ≤ 2 ∧
     (0 : ℚ) ≤ (getBoundingBoxQ samplePolygon).minLat ∧
     (getBoundingBoxQ samplePolygon).maxLat ≤ 2) :=
  ⟨C5_bounding_box_sentinels.2.1 samplePolygon (2, 2)
     (by norm_num [samplePolygon]),
   C5_bounding_box_sentinels.2.2 samplePolygon
     { minLon := 0, maxLon := 2, minLat := 0, maxLat := 2 }
     (by simp [samplePolygon])
     (by
       intro q hq
       rw [samplePolygon] at hq
       rcases List.mem_cons.mp hq with rfl | hq
       · exact ⟨le_refl 0, by norm_num, le_refl 0, by norm_num⟩
       rcases List.mem_cons.mp hq with rfl | hq
       · exact ⟨by norm_num, by norm_num, le_refl 0, by norm_num⟩
       rcases List.mem_cons.mp hq with rfl | hq
       · exact ⟨by norm_num, by norm_num, by norm_num, by norm_num⟩
       rcases List.mem_cons.mp hq with rfl | hq
       · exact ⟨le_refl 0, by norm_num, by norm_num, by norm_num⟩
       · exact absurd hq (List.not_mem_nil _))⟩

/-- C6: every feature of the area overlay collection built from an
anomaly set is the closed square of half-width 0.005 degrees centered on
its source anomaly location: its ring lists the four corners and repeats
the first corner last, every vertex is within 0.005 degrees of the
anomaly point on each axis, and the feature carries the anomaly id and
severity as properties. -/
theorem C6_area_overlay_closed_squares (anoms : List AnomalyInfo)
    (a : AnomalyInfo) (ha : a ∈ anoms) :
    mkAreaFeature a ∈ anoms.map mkAreaFeature ∧
    (mkAreaFeature a).id = a.id ∧
    (mkAreaFeature a).severity = a.severity ∧
    (mkAreaFeature a).coordinates =
      [(a.location.1 - 0.005, a.location.2 - 0.005),
       (a.location.1 + 0.005, a.location.2 - 0.005),
       (a.location.1 + 0.005, a.location.2 + 0.005),
       (a.location.1 - 0.005, a.location.2 + 0.005),
       (a.location.1 - 0.005, a.location.2 - 0.005)] ∧
    (mkAreaFeature a).coordinates.head? =
      (mkAreaFeature a).coordinates.getLast? ∧
    ∀ v ∈ (mkAreaFeature a).coordinates,
      |v.1 - a.location.1| ≤ 0.005 ∧ |v.2 - a.location.2| ≤ 0.005 := by
  refine ⟨List.mem_map_of_mem _ ha, rfl, rfl, rfl, rfl, ?_⟩
  intro v hv
  rw [mkAreaFeature] at hv
  rcases List.mem_cons.mp hv with rfl | hv
  · constructor <;> (rw [abs_le]; constructor <;> simp <;> norm_num)
  rcases List.mem_cons.mp hv with rfl | hv
  · constructor <;> (rw [abs_le]; constructor <;> simp <;> norm_num)
  rcases List.mem_cons.mp hv with rfl | hv
  · constructor <;> (rw [abs_le]; constructor <;> simp <;> norm_num)
  rcases List.mem_cons.mp hv with rfl | hv
  · constructor <;> (rw [abs_le]; constructor <;> simp <;> norm_num)
  rcases List.mem_cons.mp hv with rfl | hv
  · constructor <;> (rw [abs_le]; constructor <;> simp <;> norm_num)
  · exact absurd hv (List.not_mem_nil _)

/-- C6 witness: the area feature of a concrete anomaly at `(1, 1)`. -/
theorem C6_witness :
    mkAreaFeature sampleAnomalyB ∈ [sampleAnomalyB].map mkAreaFeature ∧
    (mkAreaFeature sampleAnomalyB).id = sampleAnomalyB.id ∧
    (mkAreaFeature sampleAnomalyB).severity = sampleAnomalyB.severity ∧
    (mkAreaFeature sampleAnomalyB).coordinates =
      [(sampleAnomalyB.location.1 - 0.005, sampleAnomalyB.location.2 - 0.005),
       (sampleAnomalyB.location.1 + 0.005, sampleAnomalyB.location.2 - 0.005),
       (sampleAnomalyB.location.1 + 0.005, sampleAnomalyB.location.2 + 0.005),
       (sampleAnomalyB.location.1 - 0.005, sampleAnomalyB.location.2 + 0.005),
       (sampleAnomalyB.location.1 - 0.005, sampleAnomalyB.location.2 - 0.005)] ∧
    (mkAreaFeature sampleAnomalyB).coordinates.head? =
      (mkAreaFeature sampleAnomalyB).coordinates.getLast? ∧
    ∀ v ∈ (mkAreaFeature sampleAnomalyB).coordinates,
      |v.1 - sampleAnomalyB.location.1| ≤ 0.005 ∧
      |v.2 - sampleAnomalyB.location.2| ≤ 0.005 :=
  C6_area_overlay_closed_squares [sampleAnomalyB] sampleAnomalyB (by simp)

end CarbonNet
